import Mathlib

/-
Verification of the Aegis-Animator specification against a shallow
embedding of the repository source code.

Source files embedded here:
  src/src/core/ElementValidator.ts   (instance-scoped sandbox validator)
  src/src/core/CapabilityDetector.ts (probe caching and leveling policy)
  src/src/animator/AegisAnimator.ts  (the animation controller state machine)
  src/src/utils/debounce.ts          (modelled as a pending flag plus cancel)

DOM primitives (querySelector, addEventListener, IntersectionObserver,
Element.animate, timers) are host collaborators; their observable outcomes
are passed in as explicit parameters, exactly where the source reads them.
-/

namespace AegisModel

/-! ## DOM model

A document is a list of nodes; a node records its parent index, tag name,
id attribute and whether its nodeType is ELEMENT_NODE.  `domContains`
models `rootEl === el || rootEl.contains(el)` by walking parent links. -/

structure DomNode where
  parent : Option Nat
  tag : String
  idAttr : String
  nodeTypeIsElement : Bool
deriving DecidableEq, Repr

abbrev Dom := List DomNode

/-- Walks the parent chain of `e` looking for `root`; fuel bounds the walk. -/
def parentChainContains (dom : Dom) : Nat → Nat → Nat → Bool
  | 0, _, _ => false
  | fuel + 1, root, e =>
    match dom.get? e with
    | none => false
    | some n =>
      match n.parent with
      | none => false
      | some p => p == root || parentChainContains dom fuel root p

/-- DOM containment as used at ElementValidator.ts:101:
`rootEl === el || rootEl.contains(el)`. -/
def domContains (dom : Dom) (root e : Nat) : Bool :=
  root == e || parentChainContains dom dom.length root e

/-! ## ElementValidator (src/src/core/ElementValidator.ts) -/

inductive ErrKind
  | invalidParameter
  | invalidConfiguration
  | hostError
deriving DecidableEq, Repr

/-- ElementValidator.ts:19 — forbidden broad roots. -/
def forbiddenRoots : List String := ["body", "html", "#app", "#root"]

/-- ElementValidator.ts:78 — forbidden element tags. -/
def forbiddenTags : List String := ["script", "iframe", "object", "embed"]

/-- ASCII lowercase of one character (structural, so terms evaluate). -/
def lowerChar (c : Char) : Char :=
  if 65 ≤ c.toNat ∧ c.toNat ≤ 90 then Char.ofNat (c.toNat + 32) else c

/-- JavaScript `toLowerCase()` on the ASCII tag and selector names used
by this library. -/
def lowerString (s : String) : String :=
  String.mk (s.data.map lowerChar)

/-- ElementValidator.ts:31 — `el.id` choosing between hash-prefixed id and lowercased tag name. -/
def rootIdentifier (n : DomNode) : String :=
  if n.idAttr ≠ "" then "#" ++ n.idAttr else lowerString n.tag

def rootForbidden (n : DomNode) : Bool :=
  forbiddenRoots.contains (rootIdentifier n)

/-- The `el: unknown` argument of the static `validateElement`:
either a null-ish value or a node. -/
inductive TargetArg
  | nullArg
  | node (n : DomNode)
deriving DecidableEq, Repr

/-- ElementValidator.ts:69-82 — static `validateElement(el, expectedId?)`.
Rejects non-elements, id mismatches (when `expectedId` is truthy) and
forbidden tags. -/
def validateElement (t : TargetArg) (expectedId : Option String) : Except ErrKind DomNode :=
  match t with
  | .nullArg => .error .invalidParameter
  | .node n =>
    if !n.nodeTypeIsElement then .error .invalidParameter
    else if (match expectedId with
             | some i => !i.isEmpty && n.idAttr != i
             | none => false) then .error .invalidParameter
    else if forbiddenTags.contains (lowerString n.tag) then .error .invalidParameter
    else .ok n

/-- Equality of host-call outcomes is decidable (used to evaluate the
model on concrete inputs). -/
instance {ε α : Type} [DecidableEq ε] [DecidableEq α] : DecidableEq (Except ε α) :=
  fun a b =>
    match a, b with
    | .ok x, .ok y =>
      if h : x = y then .isTrue (by rw [h]) else .isFalse (fun hc => h (Except.ok.inj hc))
    | .error x, .error y =>
      if h : x = y then .isTrue (by rw [h]) else .isFalse (fun hc => h (Except.error.inj hc))
    | .ok _, .error _ => .isFalse (fun hc => Except.noConfusion hc)
    | .error _, .ok _ => .isFalse (fun hc => Except.noConfusion hc)

/-- ElementValidator.ts:25-37 — the constructor: requires a non-empty root
list and rejects forbidden broad roots; on success the allowed roots are
exactly the supplied roots. -/
def mkValidator (dom : Dom) (roots : List Nat) : Except ErrKind (List Nat) :=
  if roots.isEmpty then .error .invalidConfiguration
  else if roots.any (fun r =>
      match dom.get? r with
      | some n => rootForbidden n
      | none => false) then .error .invalidConfiguration
  else .ok roots

/-- ElementValidator.ts:92-122 — `queryElementSafely`.  The host outcomes
are parameters: `parseOk` is the detached-fragment syntax test of
`validateSelectorSyntax`, and `queryResult` is what
`context.querySelector(selector)` returned.  Every thrown error is caught
at ElementValidator.ts:118 and becomes `null`. -/
def queryElementSafely (dom : Dom) (allowed : List Nat) (selector : String)
    (parseOk : Bool) (queryResult : Option Nat) : Option Nat :=
  if selector.trim.isEmpty then none
  else if !parseOk then none
  else
    match queryResult with
    | none => none
    | some e =>
      if allowed.any (fun r => domContains dom r e) then
        match dom.get? e with
        | none => none
        | some n =>
          match validateElement (.node n) none with
          | .ok _ => some e
          | .error _ => none
      else none

/-! ## CapabilityDetector (src/src/core/CapabilityDetector.ts) -/

inductive Level
  | premium
  | enhanced
  | standard
  | fallback
deriving DecidableEq, Repr

structure AnimationCapabilities where
  webAnimations : Bool
  viewTransitions : Bool
  intersectionObserver : Bool
  reducedMotion : Bool
  composite : Bool
  supportsNegativePlaybackRate : Bool
  level : Level
deriving DecidableEq, Repr

/-- Outcomes of the environment probes, including whether the two advanced
probes threw (CapabilityDetector.ts:36-41 wraps them in one try/catch; a
throw in the first leaves both at `false`, a throw in the second leaves
only the second at `false`). -/
structure ProbeResults where
  webAnimations : Bool
  viewTransitions : Bool
  intersectionObserver : Bool
  reducedMotion : Bool
  compositeProbe : Bool
  negativeRateProbe : Bool
  compositeProbeThrows : Bool
  negativeProbeThrows : Bool
deriving DecidableEq, Repr

/-- CapabilityDetector.ts:19-62 — `detect()` on fixed probe outcomes
(the static cache memoizes this pure computation). -/
def detect (p : ProbeResults) : AnimationCapabilities :=
  let composite := if p.compositeProbeThrows then false else p.compositeProbe
  let neg := if p.compositeProbeThrows || p.negativeProbeThrows then false
             else p.negativeRateProbe
  let level : Level :=
    if p.viewTransitions && p.webAnimations then .premium
    else if p.webAnimations && composite then .enhanced
    else if p.webAnimations then .standard
    else .fallback
  { webAnimations := p.webAnimations
    viewTransitions := p.viewTransitions
    intersectionObserver := p.intersectionObserver
    reducedMotion := p.reducedMotion
    composite := composite
    supportsNegativePlaybackRate := neg
    level := level }

/-- Modelled from the spec (section 4.1 leveling policy), for comparison
with the source: first match wins, in the order stated by the spec, where
`timelineAnimation` is the web-animations probe and `compositingSupported`
is the composite probe. -/
def levelSpec (viewTransitions timelineAnimation compositingSupported : Bool) : Level :=
  if viewTransitions && timelineAnimation then .premium
  else if timelineAnimation && compositingSupported then .enhanced
  else if timelineAnimation then .standard
  else .fallback

/-! ## Animation tracks and playback (AegisAnimator.ts:264-295) -/

inductive PlayAction
  | setRate (r : Int)
  | setCurrentTime (t : Nat)
  | play
  | pause
deriving DecidableEq, Repr

/-- One animation track (a paused `Animation` handle). -/
structure Track where
  duration : Nat
  currentTime : Nat
  playbackRate : Int
  playing : Bool
deriving DecidableEq, Repr

def applyAction (t : Track) : PlayAction → Track
  | .setRate r => { t with playbackRate := r }
  | .setCurrentTime c => { t with currentTime := c }
  | .play => { t with playing := true }
  | .pause => { t with playing := false }

def applyActions (t : Track) (as : List PlayAction) : Track :=
  as.foldl applyAction t

/-- AegisAnimator.ts:275-295 — `playOrSeekAnimation` as the sequence of
commands issued to the track.  `failAt = some k` models a throw at the
k-th statement of the try block (AegisAnimator.ts:284-291): the statements
before it took effect, then the catch handler runs `seekToEndState`. -/
def playOrSeekAnimation (supportsNeg : Bool) (duration : Nat) (playToEndState : Bool)
    (failAt : Option Nat) : List PlayAction :=
  let seekToEndState : List PlayAction :=
    [.setCurrentTime (if playToEndState then duration else 0), .pause]
  if supportsNeg = true ∧ 0 < duration then
    let tryOps : List PlayAction :=
      [.setRate (if playToEndState then 1 else -1),
       .setCurrentTime (if playToEndState then 0 else duration),
       .play]
    match failAt with
    | none => tryOps
    | some k => tryOps.take k ++ seekToEndState
  else seekToEndState

/-- Effect of one `playOrSeekAnimation` call on a track, in the
environment-does-not-throw case (used by the controller machine). -/
def playOrSeekTrack (supportsNeg : Bool) (toEnd : Bool) (t : Track) : Track :=
  applyActions t (playOrSeekAnimation supportsNeg t.duration toEnd none)

/-! ## AnimationController state machine (src/src/animator/AegisAnimator.ts)

The controller state carries the three booleans, the resource handles
(abort signal, debounce timer, observer, sentinel), the two maps, the
marker attributes/classes on the target element and the metric counters.
Host events are delivered through `step`. -/

inductive TriggerType
  | hover
  | click
  | scroll
deriving DecidableEq, Repr

/-- The trigger-relevant part of the frozen `AnimatorOptions`. -/
structure AnimatorOptionsM where
  id : Option String
  selectors : List (String × String)
  animKeys : List String
  duration : Nat
  triggerType : TriggerType
  revertOnHover : Bool
deriving Repr

structure CtrlState where
  isHovering : Bool
  isTriggered : Bool
  isDestroyed : Bool
  /-- abortController signal has not been aborted. -/
  signalActive : Bool
  /-- a debounce timeout is currently scheduled. -/
  pendingDebounce : Bool
  observerConnected : Bool
  sentinelPresent : Bool
  /-- setupTrigger registered the mouseenter/mouseleave trigger closures. -/
  hoverTriggerWired : Bool
  /-- attachHoverListeners registered handleMouseEnter/handleMouseLeave. -/
  revertWired : Bool
  animations : List (String × Track)
  elements : List (String × Nat)
  /-- the data-animation-ready attribute is present. -/
  readyAttr : Bool
  /-- value of the data-animation-disabled attribute, if present. -/
  disabledAttr : Option String
  classes : List String
  /-- number of invocations of the host `animate` primitive. -/
  animateCalls : Nat
  animationCount : Nat
  errorCount : Nat
  errorsLogged : List ErrKind
  playbackRequests : List Bool
deriving DecidableEq, Repr

/-- Field state of a freshly created AegisAnimator object (class-field
initializers plus the AbortController created at AegisAnimator.ts:72). -/
def initState : CtrlState where
  isHovering := false
  isTriggered := false
  isDestroyed := false
  signalActive := true
  pendingDebounce := false
  observerConnected := false
  sentinelPresent := false
  hoverTriggerWired := false
  revertWired := false
  animations := []
  elements := []
  readyAttr := false
  disabledAttr := none
  classes := []
  animateCalls := 0
  animationCount := 0
  errorCount := 0
  errorsLogged := []
  playbackRequests := []

/-- AegisAnimator.ts:327-350 — `destroy()`. -/
def destroy (s : CtrlState) : CtrlState :=
  if s.isDestroyed then s
  else { s with
    isDestroyed := true
    pendingDebounce := false
    signalActive := false
    observerConnected := false
    animations := []
    sentinelPresent := false
    elements := []
    readyAttr := false }

def addClass (c : String) (s : CtrlState) : CtrlState :=
  if s.classes.contains c then s else { s with classes := s.classes ++ [c] }

/-- AegisAnimator.ts:302-305 — `handleFallback(reason)`. -/
def handleFallbackS (reason : String) (s : CtrlState) : CtrlState :=
  { addClass "js-animation-fallback" s with disabledAttr := some reason }

/-- AegisAnimator.ts:297-300 — `handleReducedMotion()`. -/
def handleReducedMotionS (s : CtrlState) : CtrlState :=
  { addClass "reduced-motion" s with disabledAttr := some "reduced-motion" }

/-- AegisAnimator.ts:307-315 — `handleError`: count, log, and self-destroy
past the retry budget of 3. -/
def handleErrorS (k : ErrKind) (s : CtrlState) : CtrlState :=
  let s1 := { s with errorCount := s.errorCount + 1, errorsLogged := s.errorsLogged ++ [k] }
  if s1.errorCount > 3 then destroy s1 else s1

/-- AegisAnimator.ts:264-272 — `playAllAnimations(playToEndState)`. -/
def playAllAnimations (caps : AnimationCapabilities) (toEnd : Bool) (s : CtrlState) : CtrlState :=
  { s with
    animations := s.animations.map
      (fun p => (p.1, playOrSeekTrack caps.supportsNegativePlaybackRate toEnd p.2))
    playbackRequests := s.playbackRequests ++ [toEnd] }

/-- AegisAnimator.ts:235-240 — `updateAnimationState()`. -/
def updateAnimationState (opts : AnimatorOptionsM) (caps : AnimationCapabilities)
    (s : CtrlState) : CtrlState :=
  if s.isDestroyed || (s.isHovering && opts.revertOnHover) then s
  else
    let s1 := playAllAnimations caps s.isTriggered s
    { s1 with animationCount := s1.animationCount + 1 }

/-- AegisAnimator.ts:242-248 — `handleMouseEnter` (revertOnHover path). -/
def handleMouseEnter (caps : AnimationCapabilities) (s : CtrlState) : CtrlState :=
  if s.isDestroyed || !s.isTriggered then s
  else playAllAnimations caps false { s with isHovering := true, pendingDebounce := false }

/-- AegisAnimator.ts:250-255 — `handleMouseLeave` (revertOnHover path):
guard, clear `isHovering`, schedule the debounced leave action (the
debounced function exists only when `revertOnHover` is set,
AegisAnimator.ts:76-79). -/
def handleMouseLeave (opts : AnimatorOptionsM) (s : CtrlState) : CtrlState :=
  if s.isDestroyed || !s.isTriggered then s
  else { s with
    isHovering := false
    pendingDebounce := if opts.revertOnHover then true else s.pendingDebounce }

/-- AegisAnimator.ts:257-261 — `performMouseLeaveActions`, fired by the
debounce timer; the timer only fires while scheduled. -/
def debounceFire (caps : AnimationCapabilities) (s : CtrlState) : CtrlState :=
  if s.pendingDebounce then
    let s1 := { s with pendingDebounce := false }
    if !s1.isHovering && !s1.isDestroyed && s1.isTriggered
    then playAllAnimations caps true s1
    else s1
  else s

/-- AegisAnimator.ts:178 — the anonymous mouseenter closure of the hover
trigger (note: it does not check `isDestroyed` itself; it is detached by
the abort signal instead). -/
def hoverTriggerEnter (opts : AnimatorOptionsM) (caps : AnimationCapabilities)
    (s : CtrlState) : CtrlState :=
  updateAnimationState opts caps { s with isTriggered := true }

/-- AegisAnimator.ts:179 — the anonymous mouseleave closure of the hover
trigger. -/
def hoverTriggerLeave (opts : AnimatorOptionsM) (caps : AnimationCapabilities)
    (s : CtrlState) : CtrlState :=
  updateAnimationState opts caps { s with isTriggered := false }

/-- AegisAnimator.ts:197-207 — the IntersectionObserver callback (outer
destroyed check, then the rAF-deferred loop over entries, each entry
toggling `isTriggered` to the negation of `isIntersecting`). -/
def observerCallback (opts : AnimatorOptionsM) (caps : AnimationCapabilities)
    (entries : List Bool) (s : CtrlState) : CtrlState :=
  if s.isDestroyed then s
  else
    entries.foldl (fun st inter =>
      let newTrig := !inter
      if st.isTriggered = newTrig then { st with isTriggered := newTrig }
      else updateAnimationState opts caps { st with isTriggered := newTrig }) s

/-- Host events deliverable to one controller. -/
inductive Event
  | mouseEnter
  | mouseLeave
  | click
  | observer (entries : List Bool)
  | debounceTimer
  | destroyReq
deriving DecidableEq, Repr

/-- Delivery of a mouseenter event: the hover-trigger closure runs first
(registered in setupTrigger), then the revertOnHover handler (registered
in attachHoverListeners); both only while still registered under a live
abort signal. -/
def deliverMouseEnter (opts : AnimatorOptionsM) (caps : AnimationCapabilities)
    (s : CtrlState) : CtrlState :=
  let s1 := if s.signalActive && s.hoverTriggerWired then hoverTriggerEnter opts caps s else s
  if s1.signalActive && s1.revertWired then handleMouseEnter caps s1 else s1

def deliverMouseLeave (opts : AnimatorOptionsM) (caps : AnimationCapabilities)
    (s : CtrlState) : CtrlState :=
  let s1 := if s.signalActive && s.hoverTriggerWired then hoverTriggerLeave opts caps s else s
  if s1.signalActive && s1.revertWired then handleMouseLeave opts s1 else s1

/-- One step of the controller: delivery of one host event.  A click event
reaches no handler: `setupTrigger` (AegisAnimator.ts:171-182) switches
only on the scroll and hover cases. -/
def step (opts : AnimatorOptionsM) (caps : AnimationCapabilities)
    (s : CtrlState) : Event → CtrlState
  | .mouseEnter => deliverMouseEnter opts caps s
  | .mouseLeave => deliverMouseLeave opts caps s
  | .click => s
  | .observer entries => observerCallback opts caps entries s
  | .debounceTimer => debounceFire caps s
  | .destroyReq => destroy s

def applyEvents (opts : AnimatorOptionsM) (caps : AnimationCapabilities)
    (es : List Event) (s : CtrlState) : CtrlState :=
  es.foldl (step opts caps) s

/-! ## Claim C1 and C7 theorems -/

/-- C1: for every validator constructed with roots R, and every selector
(valid syntax or not) whose document query resolves to an element that is
neither a root nor a descendant of one, `queryElementSafely` returns
`null` and never that element. -/
theorem c1_queryElementSafely_outside_roots_is_null
    (dom : Dom) (roots allowed : List Nat) (sel : String) (parseOk : Bool) (e : Nat)
    (_hmk : mkValidator dom roots = .ok allowed)
    (hout : ∀ r ∈ allowed, domContains dom r e = false) :
    queryElementSafely dom allowed sel parseOk (some e) = none := by
  unfold queryElementSafely
  by_cases h1 : sel.trim.isEmpty
  · simp [h1]
  · simp only [h1, if_false]
    by_cases h2 : parseOk
    · have hany : allowed.any (fun r => domContains dom r e) = false := by
        simp only [List.any_eq_false]
        intro r hr
        simp [hout r hr]
      simp [h2, hany]
    · simp [h2]

/-- Concrete witness for C1: a two-node document where node 1 is outside
the subtree of the only root, node 0. -/
theorem c1_witness :
    mkValidator [⟨none, "DIV", "rootel", true⟩, ⟨none, "DIV", "", true⟩] [0] = .ok [0] ∧
    queryElementSafely [⟨none, "DIV", "rootel", true⟩, ⟨none, "DIV", "", true⟩]
      [0] ".outside" true (some 1) = none := by
  refine ⟨rfl, ?_⟩
  exact c1_queryElementSafely_outside_roots_is_null
    [⟨none, "DIV", "rootel", true⟩, ⟨none, "DIV", "", true⟩] [0] [0]
    ".outside" true 1 rfl (by decide)

/-! ## Claims C2, C3: destroyed controllers are inert, destroy is idempotent -/

/-- A destroyed controller whose abort signal is dead and whose debounce
timer is cancelled absorbs every host event without change. -/
theorem step_fixed_of_torn_down (opts : AnimatorOptionsM) (caps : AnimationCapabilities)
    (s : CtrlState) (e : Event)
    (h1 : s.isDestroyed = true) (h2 : s.signalActive = false)
    (h3 : s.pendingDebounce = false) :
    step opts caps s e = s := by
  cases e with
  | mouseEnter => simp [step, deliverMouseEnter, h2]
  | mouseLeave => simp [step, deliverMouseLeave, h2]
  | click => rfl
  | observer entries => simp [step, observerCallback, h1]
  | debounceTimer => simp [step, debounceFire, h3]
  | destroyReq => simp [step, destroy, h1]

theorem applyEvents_fixed_of_torn_down (opts : AnimatorOptionsM)
    (caps : AnimationCapabilities) (es : List Event) (s : CtrlState)
    (h1 : s.isDestroyed = true) (h2 : s.signalActive = false)
    (h3 : s.pendingDebounce = false) :
    applyEvents opts caps es s = s := by
  induction es with
  | nil => rfl
  | cons e es ih =>
    have hstep : applyEvents opts caps (e :: es) s
        = applyEvents opts caps es (step opts caps s e) := rfl
    rw [hstep, step_fixed_of_torn_down opts caps s e h1 h2 h3]
    exact ih

/-- C2: in every state reachable after `destroy()` (any further sequence
of events, including more destroy calls), delivering any trigger event
leaves `isTriggered` and `isHovering` unchanged, and the
data-animation-ready attribute is absent. -/
theorem c2_after_destroy_triggers_inert (opts : AnimatorOptionsM)
    (caps : AnimationCapabilities) (s : CtrlState)
    (h : s.isDestroyed = false) (es : List Event) (e : Event) :
    (step opts caps (applyEvents opts caps es (destroy s)) e).isTriggered
        = (applyEvents opts caps es (destroy s)).isTriggered ∧
    (step opts caps (applyEvents opts caps es (destroy s)) e).isHovering
        = (applyEvents opts caps es (destroy s)).isHovering ∧
    (applyEvents opts caps es (destroy s)).readyAttr = false := by
  have hd : destroy s = { s with
      isDestroyed := true, pendingDebounce := false, signalActive := false,
      observerConnected := false, animations := [], sentinelPresent := false,
      elements := [], readyAttr := false } := by
    simp [destroy, h]
  have h1 : (destroy s).isDestroyed = true := by rw [hd]
  have h2 : (destroy s).signalActive = false := by rw [hd]
  have h3 : (destroy s).pendingDebounce = false := by rw [hd]
  have happ : applyEvents opts caps es (destroy s) = destroy s :=
    applyEvents_fixed_of_torn_down opts caps es (destroy s) h1 h2 h3
  rw [happ, step_fixed_of_torn_down opts caps (destroy s) e h1 h2 h3]
  exact ⟨rfl, rfl, by rw [hd]⟩

/-- Sample hover-trigger options with revertOnHover, used by witnesses. -/
def optsHoverW : AnimatorOptionsM :=
  { id := none, selectors := [], animKeys := [], duration := 5,
    triggerType := .hover, revertOnHover := true }

/-- Sample capabilities of a fully supportive host, used by witnesses. -/
def capsW : AnimationCapabilities :=
  detect { webAnimations := true, viewTransitions := false,
           intersectionObserver := true, reducedMotion := false,
           compositeProbe := true, negativeRateProbe := true,
           compositeProbeThrows := false, negativeProbeThrows := false }

/-- Concrete witness for C2: a fresh controller, destroyed, then a
mouseenter; a subsequent observer callback changes neither flag and the
ready attribute is absent. -/
theorem c2_witness :
    initState.isDestroyed = false ∧
    ((step optsHoverW capsW
        (applyEvents optsHoverW capsW [Event.mouseEnter] (destroy initState))
        (Event.observer [false])).isTriggered
      = (applyEvents optsHoverW capsW [Event.mouseEnter] (destroy initState)).isTriggered ∧
     (step optsHoverW capsW
        (applyEvents optsHoverW capsW [Event.mouseEnter] (destroy initState))
        (Event.observer [false])).isHovering
      = (applyEvents optsHoverW capsW [Event.mouseEnter] (destroy initState)).isHovering ∧
     (applyEvents optsHoverW capsW [Event.mouseEnter] (destroy initState)).readyAttr = false) :=
  ⟨rfl, c2_after_destroy_triggers_inert optsHoverW capsW initState rfl
    [Event.mouseEnter] (Event.observer [false])⟩

/-- C3: calling destroy twice has the same observable effect (on every
field of the controller state, its maps, its attributes and the host
resources) as calling it once — the second call is a no-op. -/
theorem c3_destroy_idempotent (s : CtrlState) : destroy (destroy s) = destroy s := by
  by_cases h : s.isDestroyed = true
  · simp [destroy, h]
  · simp only [Bool.not_eq_true] at h
    simp [destroy, h]

/-! ## Claim C6: seek fallback of playOrSeekAnimation -/

/-- C6: without negative-playback support, or with zero duration, a
playback request toward end-state `toEnd` issues exactly a direct
currentTime seek to the target extreme followed by pause, and never a
play; and a failure at any point of the reverse-playback try block falls
back to the same instant seek for that call. -/
theorem c6_playOrSeek_fallback (supportsNeg : Bool) (d : Nat) (toEnd : Bool)
    (k : Nat) (t : Track) :
    ((supportsNeg = false ∨ d = 0) →
      ∀ failAt : Option Nat,
        playOrSeekAnimation supportsNeg d toEnd failAt =
          [PlayAction.setCurrentTime (if toEnd then d else 0), PlayAction.pause] ∧
        PlayAction.play ∉ playOrSeekAnimation supportsNeg d toEnd failAt)
    ∧ (supportsNeg = true → 0 < d →
        (applyActions t (playOrSeekAnimation supportsNeg d toEnd (some k))).currentTime
            = (if toEnd then d else 0) ∧
        (applyActions t (playOrSeekAnimation supportsNeg d toEnd (some k))).playing
            = false) := by
  constructor
  · intro h failAt
    have hcond : ¬(supportsNeg = true ∧ 0 < d) := by
      rcases h with h | h
      · simp [h]
      · simp [h]
    constructor
    · simp [playOrSeekAnimation, hcond]
    · simp [playOrSeekAnimation, hcond]
  · intro h1 h2
    subst h1
    have hform : playOrSeekAnimation true d toEnd (some k) =
        ([PlayAction.setRate (if toEnd then 1 else -1),
          PlayAction.setCurrentTime (if toEnd then 0 else d),
          PlayAction.play].take k)
        ++ [PlayAction.setCurrentTime (if toEnd then d else 0), PlayAction.pause] := by
      simp [playOrSeekAnimation, h2]
    rw [hform]
    unfold applyActions
    rw [List.foldl_append]
    exact ⟨rfl, rfl⟩

/-- Sample in-flight track used by witnesses. -/
def trackSample : Track :=
  { duration := 5, currentTime := 3, playbackRate := 1, playing := true }

/-- Concrete witness for C6: on a host without negative playback the call
is a seek-and-pause with no play; and a failure after two statements of
the reverse path still lands on the seeked, paused state. -/
theorem c6_witness :
    (playOrSeekAnimation false 5 true none =
        [PlayAction.setCurrentTime 5, PlayAction.pause] ∧
      PlayAction.play ∉ playOrSeekAnimation false 5 true none) ∧
    ((applyActions trackSample (playOrSeekAnimation true 5 false (some 2))).currentTime = 0 ∧
      (applyActions trackSample (playOrSeekAnimation true 5 false (some 2))).playing = false) := by
  constructor
  · have h := (c6_playOrSeek_fallback false 5 true 0 trackSample).1 (Or.inl rfl) none
    simpa using h
  · have h := (c6_playOrSeek_fallback true 5 false 2 trackSample).2 rfl (by norm_num)
    simpa using h

/-! ## Claim C10: the revertOnHover mouseleave handler guard -/

/-- C10: with revertOnHover enabled, `handleMouseLeave` changes no state
at all unless the controller is not destroyed and currently triggered; in
particular, if the viewport observer clears `isTriggered` while the
pointer hovers, `isHovering` remains true after the pointer leaves. -/
theorem c10_mouseleave_requires_triggered (opts : AnimatorOptionsM)
    (caps : AnimationCapabilities) (s : CtrlState)
    (hrv : opts.revertOnHover = true) :
    (¬(s.isDestroyed = false ∧ s.isTriggered = true) → handleMouseLeave opts s = s)
    ∧ (s.isDestroyed = false → s.isHovering = true →
        (handleMouseLeave opts (observerCallback opts caps [true] s)).isHovering = true) := by
  constructor
  · intro h
    rcases Bool.eq_false_or_eq_true s.isDestroyed with hd | hd
    · simp [handleMouseLeave, hd]
    · have ht : s.isTriggered = false := by
        rcases Bool.eq_false_or_eq_true s.isTriggered with ht | ht
        · exact absurd ⟨hd, ht⟩ h
        · exact ht
      simp [handleMouseLeave, hd, ht]
  · intro hd hh
    have hobs : (observerCallback opts caps [true] s).isHovering = true ∧
        (observerCallback opts caps [true] s).isTriggered = false ∧
        (observerCallback opts caps [true] s).isDestroyed = false := by
      rcases Bool.eq_false_or_eq_true s.isTriggered with ht | ht
      · simp [observerCallback, hd, ht, hh, hrv, updateAnimationState]
      · simp [observerCallback, hd, ht, hh]
    obtain ⟨e1, e2, e3⟩ := hobs
    simp [handleMouseLeave, e1, e2, e3]

/-- Sample live, hovering, untriggered state used by witnesses. -/
def hoverState : CtrlState := { initState with isHovering := true }

/-- Concrete witness for C10: on a live hovering controller whose
observer just cleared the trigger, a mouseleave is a no-op and hovering
stays set. -/
theorem c10_witness :
    handleMouseLeave optsHoverW hoverState = hoverState ∧
    (handleMouseLeave optsHoverW
      (observerCallback optsHoverW capsW [true] hoverState)).isHovering = true := by
  constructor
  · exact (c10_mouseleave_requires_triggered optsHoverW capsW hoverState rfl).1 (by decide)
  · exact (c10_mouseleave_requires_triggered optsHoverW capsW hoverState rfl).2 rfl rfl

/-- C7: the capability level computed by `detect` is a pure function of
the probe booleans, equal to the first-match-wins policy of the spec
(viewTransitions and timelineAnimation give premium; else
timelineAnimation and compositingSupported give enhanced; else
timelineAnimation gives standard; else fallback). -/
theorem c7_level_matches_spec_policy (p : ProbeResults) :
    (detect p).level = levelSpec p.viewTransitions p.webAnimations (detect p).composite := by
  obtain ⟨wa, vt, iob, rm, co, ng, ct, nt⟩ := p
  cases wa <;> cases vt <;> cases co <;> cases ct <;> rfl

/-! ## Construction (AegisAnimator.ts:61-169)

Host outcomes consumed during construction are explicit parameters: the
target argument, the probe outcomes, the per-selector result of the
sandboxed `queryElementSafely` calls, and whether the host `animate`
primitive throws.  `construct` returns `.error ()` exactly when an
exception escapes the constructor to the caller. -/

structure ConstructEnv where
  target : TargetArg
  probes : ProbeResults
  resolveChild : String → Option Nat
  animateThrows : Bool

/-- AegisAnimator.ts:106-111 — `checkPrerequisites`. -/
def checkPrerequisites (caps : AnimationCapabilities) (t : TriggerType) : Bool :=
  match t with
  | .scroll => caps.webAnimations && caps.intersectionObserver
  | _ => caps.webAnimations

/-- AegisAnimator.ts:132-135 — the resolution loop of `setupElements`:
children whose sandboxed query returns null are skipped, not failed. -/
def resolveChildren (opts : AnimatorOptionsM) (env : ConstructEnv) : List (String × Nat) :=
  opts.selectors.filterMap (fun p => (env.resolveChild p.2).map (fun e => (p.1, e)))

def newTrack (d : Nat) : Track :=
  { duration := d, currentTime := 0, playbackRate := 1, playing := false }

/-- AegisAnimator.ts:144-169 — `createAnimations`: the target track first,
then one track per declared keyframe key that resolved to a child; every
`animate` call is counted; a throw is caught at AegisAnimator.ts:165-168
(handleError plus handleFallback) and the loop is abandoned. -/
def childTrackFold (opts : AnimatorOptionsM) (st : CtrlState) (k : String) : CtrlState :=
  if k = "target" then st
  else
    match st.elements.lookup k with
    | some _ => { st with
        animateCalls := st.animateCalls + 1
        animations := st.animations ++ [(k, newTrack opts.duration)] }
    | none => st

def createAnimationsS (opts : AnimatorOptionsM) (env : ConstructEnv)
    (s : CtrlState) : CtrlState :=
  if env.animateThrows then
    handleFallbackS "error"
      (handleErrorS .hostError { s with animateCalls := s.animateCalls + 1 })
  else
    opts.animKeys.foldl (childTrackFold opts)
      { s with
        animateCalls := s.animateCalls + 1
        animations := [("target", newTrack opts.duration)] }

/-- AegisAnimator.ts:113-136 — `initialize`: the child-count cap check of
`setupElements` throws past the element loop and is caught by the catch
at AegisAnimator.ts:121-124; otherwise children are resolved, tracks
created, the trigger wired and the ready attribute set. -/
def initSequence (opts : AnimatorOptionsM) (env : ConstructEnv)
    (s : CtrlState) : CtrlState :=
  if opts.selectors.length > 10 then
    handleFallbackS "error" (handleErrorS .invalidParameter s)
  else
    { createAnimationsS opts env { s with elements := resolveChildren opts env } with
      hoverTriggerWired := opts.triggerType == .hover
      observerConnected := opts.triggerType == .scroll
      sentinelPresent := opts.triggerType == .scroll
      revertWired := opts.revertOnHover
      readyAttr := true }

/-- AegisAnimator.ts:61-104 — the constructor.  The outer catch at
AegisAnimator.ts:100-103 calls handleFallback, which dereferences
`this.targetElement`; when target validation threw, that field was never
assigned, so the catch handler itself raises and the exception escapes to
the caller (`.error ()`). -/
def construct (opts : AnimatorOptionsM) (env : ConstructEnv) : Except Unit CtrlState :=
  match validateElement env.target opts.id with
  | .error _ => .error ()
  | .ok n =>
    if rootForbidden n then
      .ok (handleFallbackS "error" (handleErrorS .invalidConfiguration initState))
    else
      if (detect env.probes).reducedMotion then
        .ok (handleReducedMotionS initState)
      else if checkPrerequisites (detect env.probes) opts.triggerType then
        .ok (initSequence opts env initState)
      else
        .ok (handleFallbackS "api-unavailable" initState)

/-! ## Claim C4: construction-time error handling -/

/-- Options with an invalid (null) target, used for the C4 counterexample. -/
def optsPlain : AnimatorOptionsM :=
  { id := none, selectors := [], animKeys := [], duration := 5,
    triggerType := .hover, revertOnHover := false }

/-- Environment whose target argument is not an element. -/
def envNullTarget : ConstructEnv :=
  { target := .nullArg
    probes := { webAnimations := true, viewTransitions := false,
                intersectionObserver := true, reducedMotion := false,
                compositeProbe := true, negativeRateProbe := true,
                compositeProbeThrows := false, negativeProbeThrows := false }
    resolveChild := fun _ => none
    animateThrows := false }

/-- C4 counterexample: constructing with an invalid target element lets
an exception escape to the caller (the catch handler dereferences the
never-assigned target field), contradicting the claim that every fatal
initialization error — including an invalid target — is converted into a
fallback marker with no exception escaping. -/
theorem c4_counterexample :
    construct optsPlain envNullTarget = Except.error () := rfl

/-- The child-track creation loop never touches the error counter. -/
theorem childTrackFold_errorCount (opts : AnimatorOptionsM) (ks : List String)
    (st : CtrlState) :
    (ks.foldl (childTrackFold opts) st).errorCount = st.errorCount := by
  induction ks generalizing st with
  | nil => rfl
  | cons k ks ih =>
    rw [List.foldl_cons, ih]
    unfold childTrackFold
    by_cases hk : k = "target"
    · rw [if_pos hk]
    · rw [if_neg hk]
      rcases st.elements.lookup k with _ | e
      · rfl
      · rfl

/-- Whenever the model of `initialize` records an error, the fallback
marker has been applied. -/
theorem initSequence_marks_on_error (opts : AnimatorOptionsM) (env : ConstructEnv) :
    0 < (initSequence opts env initState).errorCount →
      (initSequence opts env initState).disabledAttr = some "error" ∧
      (initSequence opts env initState).classes.contains "js-animation-fallback" = true := by
  unfold initSequence
  by_cases hcap : opts.selectors.length > 10
  · rw [if_pos hcap]
    intro _
    exact ⟨rfl, by decide⟩
  · rw [if_neg hcap]
    intro hc
    unfold createAnimationsS at hc ⊢
    by_cases ha : env.animateThrows = true
    · rw [if_pos ha]
      exact ⟨rfl, rfl⟩
    · exfalso
      rw [if_neg ha] at hc
      simp only [childTrackFold_errorCount] at hc
      simp [initState] at hc

/-- C4 amended: once the target element itself validates, every fatal
construction error is caught and converted into the visible fallback
marker (class js-animation-fallback, attribute
data-animation-disabled="error"), and no exception escapes. -/
theorem c4_amended_no_escape_after_valid_target (opts : AnimatorOptionsM)
    (env : ConstructEnv) (n : DomNode)
    (h : validateElement env.target opts.id = .ok n) :
    ∃ s, construct opts env = .ok s ∧
      (0 < s.errorCount →
        s.disabledAttr = some "error" ∧
        s.classes.contains "js-animation-fallback" = true) := by
  simp only [construct, h]
  by_cases hf : rootForbidden n = true
  · rw [if_pos hf]
    exact ⟨_, rfl, fun _ => ⟨rfl, by decide⟩⟩
  · rw [if_neg hf]
    by_cases hr : (detect env.probes).reducedMotion = true
    · rw [if_pos hr]
      exact ⟨_, rfl, fun hc => absurd hc (by decide)⟩
    · rw [if_neg hr]
      by_cases hp : checkPrerequisites (detect env.probes) opts.triggerType = true
      · rw [if_pos hp]
        exact ⟨_, rfl, initSequence_marks_on_error opts env⟩
      · rw [if_neg hp]
        exact ⟨_, rfl, fun hc => absurd hc (by decide)⟩

/-- Concrete witness for C4 (amended): a valid div target with a
too-large child map is marked degraded and no exception escapes. -/
theorem c4_amended_witness :
    validateElement (.node ⟨none, "DIV", "w4", true⟩) none = .ok ⟨none, "DIV", "w4", true⟩ ∧
    ∃ s, construct
        { id := none,
          selectors := [("a", ".a"), ("b", ".b"), ("c", ".c"), ("d", ".d"),
                        ("e", ".e"), ("f", ".f"), ("g", ".g"), ("h", ".h"),
                        ("i", ".i"), ("j", ".j"), ("k", ".k")],
          animKeys := [], duration := 5, triggerType := .hover, revertOnHover := false }
        { target := .node ⟨none, "DIV", "w4", true⟩
          probes := { webAnimations := true, viewTransitions := false,
                      intersectionObserver := true, reducedMotion := false,
                      compositeProbe := true, negativeRateProbe := true,
                      compositeProbeThrows := false, negativeProbeThrows := false }
          resolveChild := fun _ => none
          animateThrows := false } = .ok s ∧
      (0 < s.errorCount →
        s.disabledAttr = some "error" ∧
        s.classes.contains "js-animation-fallback" = true) :=
  ⟨rfl, c4_amended_no_escape_after_valid_target _ _ ⟨none, "DIV", "w4", true⟩ rfl⟩

/-! ## Claim C5: the child-element cap -/

/-- C5: declaring more than 10 child selectors (here exactly 11) makes
construction fail at setup time with the parameter/configuration error
raised by setupElements: no tracks are created, no children resolved
(no clamping), the host animate primitive is never called, the ready
marker is absent and the element is marked degraded. -/
theorem c5_cap_exceeded_fails_construction (opts : AnimatorOptionsM)
    (env : ConstructEnv) (n : DomNode)
    (h : validateElement env.target opts.id = .ok n)
    (hf : rootForbidden n = false)
    (hr : (detect env.probes).reducedMotion = false)
    (hp : checkPrerequisites (detect env.probes) opts.triggerType = true)
    (hcap : opts.selectors.length = 11) :
    ∃ s, construct opts env = .ok s ∧
      s.animations = [] ∧ s.elements = [] ∧ s.readyAttr = false ∧
      s.animateCalls = 0 ∧ s.errorsLogged = [ErrKind.invalidParameter] ∧
      s.disabledAttr = some "error" := by
  have hc : construct opts env =
      .ok (handleFallbackS "error" (handleErrorS .invalidParameter initState)) := by
    simp only [construct, h]
    rw [if_neg (by simp [hf]), if_neg (by simp [hr]), if_pos hp]
    unfold initSequence
    rw [if_pos (by rw [hcap]; norm_num)]
  exact ⟨_, hc, rfl, rfl, rfl, rfl, rfl, rfl⟩

/-- Eleven declared child selectors, used by the C5 witness. -/
def opts11 : AnimatorOptionsM :=
  { id := none,
    selectors := [("c1", ".c1"), ("c2", ".c2"), ("c3", ".c3"), ("c4", ".c4"),
                  ("c5", ".c5"), ("c6", ".c6"), ("c7", ".c7"), ("c8", ".c8"),
                  ("c9", ".c9"), ("c10", ".c10"), ("c11", ".c11")],
    animKeys := [], duration := 4, triggerType := .scroll, revertOnHover := false }

/-- A valid div target on a fully supportive host, used by witnesses. -/
def envSupportive : ConstructEnv :=
  { target := .node ⟨none, "DIV", "hero", true⟩
    probes := { webAnimations := true, viewTransitions := false,
                intersectionObserver := true, reducedMotion := false,
                compositeProbe := true, negativeRateProbe := true,
                compositeProbeThrows := false, negativeProbeThrows := false }
    resolveChild := fun _ => none
    animateThrows := false }

/-- Concrete witness for C5: eleven selectors on a valid scroll-trigger
controller yield a degraded, trackless construction. -/
theorem c5_witness :
    ∃ s, construct opts11 envSupportive = .ok s ∧
      s.animations = [] ∧ s.elements = [] ∧ s.readyAttr = false ∧
      s.animateCalls = 0 ∧ s.errorsLogged = [ErrKind.invalidParameter] ∧
      s.disabledAttr = some "error" :=
  c5_cap_exceeded_fails_construction opts11 envSupportive
    ⟨none, "DIV", "hero", true⟩ rfl rfl rfl rfl rfl

/-! ## Claim C8: reduced motion -/

/-- C8: a controller constructed while the reduced-motion preference is
detected creates zero tracks, never invokes the host animate primitive,
and the element carries data-animation-disabled="reduced-motion"; no
listener wiring or ready marker is applied. -/
theorem c8_reduced_motion_disables_animation (opts : AnimatorOptionsM)
    (env : ConstructEnv) (n : DomNode)
    (h : validateElement env.target opts.id = .ok n)
    (hf : rootForbidden n = false)
    (hr : (detect env.probes).reducedMotion = true) :
    ∃ s, construct opts env = .ok s ∧
      s.animations = [] ∧ s.animateCalls = 0 ∧
      s.disabledAttr = some "reduced-motion" ∧
      s.classes.contains "reduced-motion" = true ∧ s.readyAttr = false := by
  have hc : construct opts env = .ok (handleReducedMotionS initState) := by
    simp only [construct, h]
    rw [if_neg (by simp [hf]), if_pos hr]
  exact ⟨_, hc, rfl, rfl, rfl, by decide, rfl⟩

/-- An environment that prefers reduced motion, used by the C8 witness. -/
def envReducedMotion : ConstructEnv :=
  { target := .node ⟨none, "DIV", "hero", true⟩
    probes := { webAnimations := true, viewTransitions := false,
                intersectionObserver := true, reducedMotion := true,
                compositeProbe := true, negativeRateProbe := true,
                compositeProbeThrows := false, negativeProbeThrows := false }
    resolveChild := fun _ => none
    animateThrows := false }

/-- Concrete witness for C8. -/
theorem c8_witness :
    ∃ s, construct optsPlain envReducedMotion = .ok s ∧
      s.animations = [] ∧ s.animateCalls = 0 ∧
      s.disabledAttr = some "reduced-motion" ∧
      s.classes.contains "reduced-motion" = true ∧ s.readyAttr = false :=
  c8_reduced_motion_disables_animation optsPlain envReducedMotion
    ⟨none, "DIV", "hero", true⟩ rfl rfl rfl

/-! ## Claim C9: the Click trigger variant -/

/-- Options declaring the Click trigger variant. -/
def optsClick : AnimatorOptionsM :=
  { id := none, selectors := [], animKeys := [], duration := 5,
    triggerType := .click, revertOnHover := false }

/-- The state constructed for a Click-trigger controller. -/
def clickReadyState : CtrlState := initSequence optsClick envSupportive initState

/-- C9 evaluated on the code: constructing with the Click trigger (host
fully supportive, reduced motion off) completes and marks the element
ready, but `setupTrigger` wires no listener for it (its switch covers
only the scroll and hover cases), so a delivered click event leaves the
controller state — in particular `isTriggered` and the playback-request
log — completely unchanged, contrary to the claim that a click flips the
triggered state and produces a playback request. -/
theorem c9_click_trigger_not_wired :
    construct optsClick envSupportive = .ok clickReadyState ∧
    clickReadyState.readyAttr = true ∧
    clickReadyState.isTriggered = false ∧
    step optsClick capsW clickReadyState Event.click = clickReadyState ∧
    (step optsClick capsW clickReadyState Event.click).isTriggered = false ∧
    (step optsClick capsW clickReadyState Event.click).playbackRequests
      = clickReadyState.playbackRequests := by
  refine ⟨by decide, rfl, rfl, rfl, rfl, rfl⟩

end AegisModel
